import Mathlib

/-!
Verification of the multi-source risk aggregation engine of the
Opensanction_api repository, against its natural-language specification.

The Python source is dynamically typed: provider results are plain
dictionaries whose values may be numbers, strings, lists or nested
dictionaries, and the aggregator branches on `isinstance` checks.  We embed
those values as the inductive type `PyVal`.  Machine floats are modelled as
rationals (ℚ); Python `bool` is modelled as a number (in CPython `bool` is a
subclass of `int`, so `isinstance(True, (int, float))` holds and truthiness
agrees).  Operations that can raise a Python `TypeError`/`AttributeError`
(ordering a string against a number, `len` of a number, iterating a number,
`.get` on a non-dict) return `Except String _`; total operations stay pure.

Each definition mirrors one function of `src/services/risk_service.py`
(and `src/utils/cache.py` for the cache claims); the mirrored lines are
named in the doc comments.
-/

set_option autoImplicit false

namespace Risknet

/-- A dynamically typed Python value, restricted to the shapes that flow
through the risk aggregator: numbers (ints, floats and bools, all modelled
as ℚ), strings, lists, string-keyed dictionaries (association lists in
insertion order, keys unique), and `None`. -/
inductive PyVal where
  | num (q : ℚ)
  | str (s : String)
  | list (xs : List PyVal)
  | dict (kvs : List (String × PyVal))
  | none

/-- Python truthiness: zero, empty string, empty list, empty dict and
`None` are falsy, everything else truthy. -/
def PyVal.truthy : PyVal → Bool
  | .num q => q != 0
  | .str s => s ≠ ""
  | .list xs => ¬ xs.isEmpty
  | .dict kvs => ¬ kvs.isEmpty
  | .none => false

/-- `d.get(k, dflt)` on a dict given as an association list: first binding
of `k`, else the default. -/
def dictGet (kvs : List (String × PyVal)) (k : String) (dflt : PyVal) : PyVal :=
  match kvs.lookup k with
  | Option.some v => v
  | Option.none => dflt

/-- `v >= q` where `q` is a numeric literal; a `TypeError` unless `v` is
numeric (bools count as numeric). -/
def pyGE (v : PyVal) (q : ℚ) : Except String Bool :=
  match v with
  | .num x => .ok (decide (q ≤ x))
  | _ => .error "TypeError: unorderable types"

/-- `v < q` where `q` is a numeric literal; a `TypeError` unless `v` is
numeric. -/
def pyLT (v : PyVal) (q : ℚ) : Except String Bool :=
  match v with
  | .num x => .ok (decide (x < q))
  | _ => .error "TypeError: unorderable types"

/-- `max(v, q)` with a numeric literal `q`; a `TypeError` unless `v` is
numeric. -/
def pyMaxLit (v : PyVal) (q : ℚ) : Except String PyVal :=
  match v with
  | .num x => .ok (.num (max x q))
  | _ => .error "TypeError: unorderable types"

/-- `max(acc, v)` where the accumulator is already numeric; a `TypeError`
unless `v` is numeric. -/
def pyMaxAcc (acc : ℚ) (v : PyVal) : Except String ℚ :=
  match v with
  | .num x => .ok (max acc x)
  | _ => .error "TypeError: unorderable types"

/-- `len(v)`; a `TypeError` on numbers and `None`. -/
def pyLen : PyVal → Except String ℕ
  | .str s => .ok s.length
  | .list xs => .ok xs.length
  | .dict kvs => .ok kvs.length
  | _ => .error "TypeError: object has no len"

/-- `for x in v`: the sequence of values produced by iterating `v`
(list elements, characters of a string, keys of a dict); a `TypeError`
on numbers and `None`. -/
def pyIterList : PyVal → Except String (List PyVal)
  | .list xs => .ok xs
  | .str s => .ok (s.toList.map (fun c => .str (String.mk [c])))
  | .dict kvs => .ok (kvs.map (fun kv => .str kv.1))
  | _ => .error "TypeError: not iterable"

/-- Best-effort model of Python `str()` as used in the f-strings of
`_collect_risk_factors`.  Only the string and integer cases are ever relied
upon in theorems (match names and indicator strings are strings per the
provider contracts); the remaining cases are placeholders. -/
def pyStr : PyVal → String
  | .str s => s
  | .num q => if q.den = 1 then toString q.num else "non-integer"
  | .list _ => "list"
  | .dict _ => "dict"
  | .none => "None"

/-- `aggregate_scores` (src/services/risk_service.py lines 229-246): over a
dict, averages the `score_key` entries of dict values and the plain numeric
values; over a number returns it; otherwise the default. -/
def aggregate_scores (results : PyVal) (score_key : String) (default : ℚ) : ℚ :=
  match results with
  | .dict kvs =>
      let tc := kvs.foldl (fun (tc : ℚ × ℕ) kv =>
        match kv.2 with
        | .dict inner =>
            match dictGet inner score_key (.num default) with
            | .num s => (tc.1 + s, tc.2 + 1)
            | _ => tc
        | .num v => (tc.1 + v, tc.2 + 1)
        | _ => tc) (0, 0)
      if 0 < tc.2 then tc.1 / (tc.2 : ℚ) else default
  | .num v => v
  | _ => default

/-- The per-entity sanctions contribution (risk_service.py lines 253-263):
the entity result dict is read for `risk_score`, `highest_confidence` and
`matched`; a matched result with confidence ≥ 95 (resp. ≥ 85) and a score
below 80 (resp. 70) is raised to the floor.  Comparisons against a
non-numeric score or confidence raise, exactly as in Python. -/
def sanctions_entity_score (r : List (String × PyVal)) : Except String PyVal :=
  let base := dictGet r "risk_score" (.num 0)
  let conf := dictGet r "highest_confidence" (.num 0)
  let matched := dictGet r "matched" (.num 0)
  match (if matched.truthy then
           match pyGE conf 95 with
           | .error e => .error e
           | .ok g => if g then pyLT base 80 else .ok false
         else .ok false : Except String Bool) with
  | .error e => .error e
  | .ok c1 =>
      if c1 then pyMaxLit base 80
      else
        match (if matched.truthy then
                 match pyGE conf 85 with
                 | .error e => .error e
                 | .ok g => if g then pyLT base 70 else .ok false
               else .ok false : Except String Bool) with
        | .error e => .error e
        | .ok c2 => if c2 then pyMaxLit base 70 else .ok base

/-- The running maximum `sanctions_score = max(sanctions_score, base_score)`
over the entity results (risk_service.py lines 250-265); non-dict entries
are skipped, a non-numeric `base_score` raises at the `max`. -/
def sanctions_fold (acc : ℚ) : List (String × PyVal) → Except String ℚ
  | [] => .ok acc
  | kv :: rest =>
      match kv.2 with
      | .dict r =>
          match sanctions_entity_score r with
          | .ok v =>
              match pyMaxAcc acc v with
              | .ok acc2 => sanctions_fold acc2 rest
              | .error e => .error e
          | .error e => .error e
      | _ => sanctions_fold acc rest

/-- The sanctions component score (risk_service.py lines 249-265): 0 when
the input is not a dict, else the running maximum over entities starting
at 0. -/
def sanctions_component (sanctions_results : PyVal) : Except String ℚ :=
  match sanctions_results with
  | .dict kvs => sanctions_fold 0 kvs
  | _ => .ok 0

/-- The AI component score (risk_service.py line 268):
`aggregate_scores(ai_results, 'risk_score', 0)` when the AI result is a
dict, else 0. -/
def ai_component (ai_results : PyVal) : ℚ :=
  match ai_results with
  | .dict _ => aggregate_scores ai_results "risk_score" 0
  | _ => 0

/-- The relationships component score (risk_service.py line 269):
`len(relationship_results.get('created_relationships', [])) * 5` when the
input is a dict, else 0; `len` of a non-sized value raises. -/
def relationship_component (relationship_results : PyVal) : Except String ℚ :=
  match relationship_results with
  | .dict kvs =>
      match pyLen (dictGet kvs "created_relationships" (.list [])) with
      | .ok n => .ok ((n : ℚ) * 5)
      | .error e => .error e
  | _ => .ok 0

/-- A weight profile over the four sources (risk_service.py lines 272-292). -/
structure Weights where
  sanctions : ℚ
  web_intelligence : ℚ
  ai_analysis : ℚ
  relationships : ℚ
  deriving DecidableEq

/-- Sum of the four weights. -/
def Weights.total (w : Weights) : ℚ :=
  w.sanctions + w.web_intelligence + w.ai_analysis + w.relationships

/-- Weight re-normalization `{k: v/total_weight ...}` (risk_service.py
lines 295-296). -/
def Weights.normalize (w : Weights) : Weights :=
  ⟨w.sanctions / w.total, w.web_intelligence / w.total,
   w.ai_analysis / w.total, w.relationships / w.total⟩

/-- Weight-profile selection by the sanctions component score
(risk_service.py lines 272-292). -/
def select_weights (sanctions_score : ℚ) : Weights :=
  if 80 ≤ sanctions_score then ⟨0.8, 0.15, 0.03, 0.02⟩
  else if 60 ≤ sanctions_score then ⟨0.7, 0.2, 0.07, 0.03⟩
  else ⟨0.4, 0.3, 0.2, 0.1⟩

/-- Python `round` on a rational: round half to even. -/
def pyRound (q : ℚ) : ℤ :=
  let f := ⌊q⌋
  let r := q - (f : ℚ)
  if r < 1/2 then f
  else if 1/2 < r then f + 1
  else if f % 2 = 0 then f else f + 1

/-- `_get_risk_level` (risk_service.py lines 894-905). -/
def get_risk_level (risk_score : ℤ) : String :=
  if 75 ≤ risk_score then "very_high"
  else if 60 ≤ risk_score then "high"
  else if 40 ≤ risk_score then "medium"
  else if 25 ≤ risk_score then "low"
  else "very_low"

/-- One entry of the `risk_factors` list (risk_service.py lines 352-404).
`description` and `confidence` are kept as dynamic values because the
source copies provider values into them unchanged. -/
structure RiskFactor where
  source : String
  type : String
  description : PyVal
  confidence : PyVal
  severity : String

/-- The factor appended by the `except` handler of `_collect_risk_factors`
(risk_service.py lines 398-404). -/
def error_factor (msg : String) : RiskFactor :=
  ⟨"system", "processing_error",
   .str ("Error processing risk factors: " ++ msg), .num 1, "low"⟩

/-- One sanctions risk factor per match (risk_service.py lines 351-358);
`match.get` on a non-dict raises. -/
def sanctions_match_factor (m : PyVal) : Except String RiskFactor :=
  match m with
  | .dict mkvs =>
      .ok ⟨"sanctions", "sanctions_match",
        .str ("Sanctions match: " ++ pyStr (dictGet mkvs "name" (.str "Unknown"))),
        dictGet mkvs "confidence" (.num 0), "high"⟩
  | _ => .error "AttributeError: no attribute get"

/-- The sequence of sanctions factor emissions, one per match of each
entity result (risk_service.py lines 348-358); an emission is an error when
the corresponding Python append would be preceded by an exception. -/
def sanctions_emissions (sanctions_results : PyVal) : List (Except String RiskFactor) :=
  match sanctions_results with
  | .dict kvs =>
      (kvs.map (fun kv =>
        match kv.2 with
        | .dict r =>
            match pyIterList (dictGet r "matches" (.list [])) with
            | .ok ms => ms.map sanctions_match_factor
            | .error e => [.error e]
        | _ => [])).flatten
  | _ => []

/-- The sequence of web factor emissions, one per risk indicator of each
entity result (risk_service.py lines 361-371). -/
def web_emissions (web_results : PyVal) : List (Except String RiskFactor) :=
  match web_results with
  | .dict kvs =>
      (kvs.map (fun kv =>
        match kv.2 with
        | .dict r =>
            match pyIterList (dictGet r "risk_indicators" (.list [])) with
            | .ok is => is.map (fun ind =>
                .ok ⟨"web_search", "web_indicator", ind, .num 0.7, "medium"⟩)
            | .error e => [.error e]
        | _ => [])).flatten
  | _ => []

/-- The sequence of AI factor emissions, one per key finding
(risk_service.py lines 374-382). -/
def ai_emissions (ai_results : PyVal) : List (Except String RiskFactor) :=
  match ai_results with
  | .dict kvs =>
      match pyIterList (dictGet kvs "key_findings" (.list [])) with
      | .ok fs => fs.map (fun finding =>
          .ok ⟨"ai_analysis", "ai_finding", finding,
               dictGet kvs "confidence" (.num 0.5), "medium"⟩)
      | .error e => [.error e]
  | _ => []

/-- The relationship factor emission, present when more than two created
relationships exist (risk_service.py lines 385-394). -/
def relationship_emissions (relationship_results : PyVal) : List (Except String RiskFactor) :=
  match relationship_results with
  | .dict kvs =>
      match pyLen (dictGet kvs "created_relationships" (.list [])) with
      | .ok n =>
          if 2 < n then
            [.ok ⟨"relationships", "complex_relationships",
              .str ("Multiple entity relationships detected (" ++ toString n ++ ")"),
              .num 0.8, "medium"⟩]
          else []
      | .error e => [.error e]
  | _ => []

/-- Replay of the `risk_factors.append` calls: factors emitted before the
first exception are kept, the first exception aborts the rest. -/
def takeUntilError : List (Except String RiskFactor) → List RiskFactor × Option String
  | [] => ([], Option.none)
  | .ok f :: rest =>
      let (fs, e) := takeUntilError rest
      (f :: fs, e)
  | .error e :: _ => ([], Option.some e)

/-- `_collect_risk_factors` (risk_service.py lines 342-406): the factors
collected from the four sources in order sanctions, web, AI, relationships;
an exception anywhere keeps the factors appended so far and adds a single
`processing_error` factor (the inner `try`/`except`). -/
def collect_risk_factors (sr wr ar rr : PyVal) : List RiskFactor :=
  let (fs, e) := takeUntilError
    (sanctions_emissions sr ++ web_emissions wr ++ ai_emissions ar ++
     relationship_emissions rr)
  match e with
  | Option.none => fs
  | Option.some msg => fs ++ [error_factor msg]

/-- The four component scores reported under `component_scores`
(risk_service.py lines 319-324). -/
structure ComponentScores where
  sanctions : ℚ
  web_intelligence : ℚ
  ai_analysis : ℚ
  relationships : ℚ
  deriving DecidableEq

/-- The value returned by `_calculate_risk_score` (risk_service.py lines
315-325 on success, lines 329-340 on an internal exception; `error` is the
extra `error` key of the exception path). -/
structure RiskCalculation where
  risk_score : ℤ
  risk_level : String
  risk_factors : List RiskFactor
  component_scores : ComponentScores
  error : Option String

/-- The body of the `try` block of `_calculate_risk_score`
(risk_service.py lines 225-325): component scores, weight selection and
normalization, weighted sum, rounding and clamping to [0,100], risk level,
risk factors.  Propagates the internal exceptions of the sanctions loop and
of the relationships `len`. -/
def calculate_risk_score_inner (sr wr ar rr : PyVal) : Except String RiskCalculation :=
  match sanctions_component sr with
  | .error e => .error e
  | .ok sanctions_score =>
      match relationship_component rr with
      | .error e => .error e
      | .ok relationship_score =>
          let web_score := aggregate_scores wr "risk_score" 0
          let ai_score := ai_component ar
          let weights := (select_weights sanctions_score).normalize
          let final_score :=
            sanctions_score * weights.sanctions +
            web_score * weights.web_intelligence +
            ai_score * weights.ai_analysis +
            relationship_score * weights.relationships
          let risk_score := min (max (pyRound final_score) 0) 100
          .ok ⟨risk_score, get_risk_level risk_score,
               collect_risk_factors sr wr ar rr,
               ⟨sanctions_score, web_score, ai_score, relationship_score⟩,
               Option.none⟩

/-- `_calculate_risk_score` (risk_service.py lines 223-340): the `try`
body, with any internal exception caught and replaced by the default
result `risk_score 0, risk_level unknown, no factors, zero components`
carrying the error message (lines 327-340). -/
def calculate_risk_score (sr wr ar rr : PyVal) : RiskCalculation :=
  match calculate_risk_score_inner sr wr ar rr with
  | .ok r => r
  | .error e => ⟨0, "unknown", [], ⟨0, 0, 0, 0⟩, Option.some e⟩

/-- The weighted sum of lines 299-304 of risk_service.py, as a function of
the component scores (the weights are selected by the sanctions component
and re-normalized, lines 272-296). -/
def weighted_total (cs : ComponentScores) : ℚ :=
  let w := (select_weights cs.sanctions).normalize
  cs.sanctions * w.sanctions + cs.web_intelligence * w.web_intelligence +
  cs.ai_analysis * w.ai_analysis + cs.relationships * w.relationships

/-- Spec-side definition (spec.md §4.4): the risk-level intervals
`score < 25 → very_low; 25–39 → low; 40–59 → medium; 60–74 → high;
≥75 → very_high`, as a predicate relating a level name to the scores its
interval contains. -/
def level_interval (l : String) (s : ℤ) : Prop :=
  (l = "very_low" ∧ s < 25) ∨
  (l = "low" ∧ 25 ≤ s ∧ s ≤ 39) ∨
  (l = "medium" ∧ 40 ≤ s ∧ s ≤ 59) ∨
  (l = "high" ∧ 60 ≤ s ∧ s ≤ 74) ∨
  (l = "very_high" ∧ 75 ≤ s)

instance (l : String) (s : ℤ) : Decidable (level_interval l s) := by
  unfold level_interval
  infer_instance

/-- Closed form of the per-entity floor clamping of lines 257-263 of
risk_service.py for a matched entity: confidence ≥ 95 raises the score to
at least 80, confidence ≥ 85 to at least 70, otherwise the score is kept. -/
def floored (b c : ℚ) : ℚ :=
  if 95 ≤ c then max b 80 else if 85 ≤ c then max b 70 else b

/-- The neutral sanctions result substituted when a per-entity sanctions
check raises or times out (risk_service.py lines 115 and 172). -/
def sanctions_fallback : PyVal :=
  .dict [("matches", .list []), ("total_matches", .num 0),
         ("matched", .num 0), ("risk_score", .num 0)]

/-- The neutral web-intelligence result substituted when a per-entity web
search raises or times out (risk_service.py lines 123 and 182). -/
def web_fallback : PyVal :=
  .dict [("results", .list []), ("total_results", .num 0), ("risk_score", .num 0)]

/-- The per-entity sanctions fan-out of `_assess_risk_sequential`
(risk_service.py lines 166-172; the parallel path, lines 106-115, has the
same replacement semantics): each adapter failure is replaced by the
neutral fallback and the loop continues with the next entity. -/
def gather_sanctions (check : String × PyVal → Except String PyVal)
    (entities : List (String × PyVal)) : List (String × PyVal) :=
  entities.map (fun e =>
    (e.1, match check e with
          | .ok r => r
          | .error _ => sanctions_fallback))

/-- The per-entity web-intelligence fan-out of `_assess_risk_sequential`
(risk_service.py lines 176-182; parallel path lines 118-123). -/
def gather_web (search : String × PyVal → Except String PyVal)
    (entities : List (String × PyVal)) : List (String × PyVal) :=
  entities.map (fun e =>
    (e.1, match search e with
          | .ok r => r
          | .error _ => web_fallback))

/-- Steps 1, 2 and 5 of `_assess_risk_sequential` (risk_service.py lines
160-217): run the sanctions and web fan-out with failure replacement, then
hand the gathered per-entity dicts to `_calculate_risk_score` together
with the AI summary and the relationship analysis. -/
def sequential_risk (check search : String × PyVal → Except String PyVal)
    (entities : List (String × PyVal)) (ai rel : PyVal) : RiskCalculation :=
  calculate_risk_score (.dict (gather_sanctions check entities))
    (.dict (gather_web search entities)) ai rel

/-- Lookup key `k` of a dict value (Python `d[k]` / `k in d`), `none` when
absent or when the value is not a dict. -/
def pyLookup (v : PyVal) (k : String) : Option PyVal :=
  match v with
  | .dict kvs => kvs.lookup k
  | _ => Option.none

/-- `{**d, k: v}`: replace the value of `k` in place when the key exists
(Python dicts keep the original insertion position), else append the new
binding at the end. -/
def dict_update (kvs : List (String × PyVal)) (k : String) (v : PyVal) :
    List (String × PyVal) :=
  if (kvs.lookup k).isSome then
    kvs.map (fun kv => if kv.1 = k then (k, v) else kv)
  else kvs ++ [(k, v)]

/-- The state shared by `CacheManager` and the clock: the Redis store
(full key ↦ parsed cached dict), the current `time.time()` and the
configured TTL (cache.py lines 14-18). -/
structure CacheState where
  store : List (String × PyVal)
  now : ℚ
  ttl : ℚ

/-- Advance the wall clock. -/
def CacheState.advance (st : CacheState) (d : ℚ) : CacheState :=
  { st with now := st.now + d }

/-- `CacheManager.delete` (cache.py lines 129-151). -/
def cache_delete (st : CacheState) (key : String) : CacheState :=
  { st with store := st.store.filter (fun kv => kv.1 ≠ "risknet:" ++ key) }

/-- `CacheManager.get` (cache.py lines 51-83): look up `risknet:<key>`; a
stored dict whose `cached_at` is older than the TTL is deleted and treated
as a miss, otherwise the parsed dict is returned.  Stored values are always
dicts with a numeric `cached_at`, because only `cache_set` writes them. -/
def cache_get (st : CacheState) (key : String) : Option PyVal × CacheState :=
  match st.store.lookup ("risknet:" ++ key) with
  | Option.none => (Option.none, st)
  | Option.some v =>
      match pyLookup v "cached_at" with
      | Option.some (.num t) =>
          if st.ttl < st.now - t then (Option.none, cache_delete st key)
          else (Option.some v, st)
      | _ => (Option.some v, st)

/-- The dict stored by `CacheManager.set` (cache.py lines 102-106):
`{**value, 'cached_at': time.time(), 'cache_key': key}`.  Non-dict values
never reach `set` in this code base. -/
def with_cache_meta (value : PyVal) (now : ℚ) (key : String) : PyVal :=
  match value with
  | .dict kvs =>
      .dict (dict_update (dict_update kvs "cached_at" (.num now)) "cache_key" (.str key))
  | v => v

/-- `CacheManager.set` (cache.py lines 85-127): store the value, extended
with the `cached_at`/`cache_key` metadata, under `risknet:<key>`
(overwriting any previous entry, as Redis `SETEX` does). -/
def cache_set (st : CacheState) (key : String) (value : PyVal) : CacheState :=
  { st with store :=
      dict_update st.store ("risknet:" ++ key) (with_cache_meta value st.now key) }

/-- One string component of the cache key: the entity field when it is a
string, else the empty string (the upstream validation layer guarantees
these identity fields are strings). -/
def keyPart (kvs : List (String × PyVal)) (k : String) : String :=
  match dictGet kvs k (.str "") with
  | .str s => s
  | _ => ""

/-- `_generate_cache_key` (risk_service.py lines 868-892): join the
non-empty identity fields of the person and the company with a bar and
hash the result; `h` stands for the process-stable Python `hash`. -/
def generate_cache_key (h : String → ℤ) (d : PyVal) : String :=
  let person_parts :=
    match pyLookup d "person" with
    | Option.some (.dict p) =>
        if (PyVal.dict p).truthy then
          [keyPart p "name", keyPart p "email", keyPart p "phone", keyPart p "country"]
        else []
    | _ => []
  let company_parts :=
    match pyLookup d "company" with
    | Option.some (.dict c) =>
        if (PyVal.dict c).truthy then
          [keyPart c "name", keyPart c "registration_number", keyPart c "country"]
        else []
    | _ => []
  let key_string :=
    String.intercalate "|" ((person_parts ++ company_parts).filter (fun s => s ≠ ""))
  "risk_assessment:" ++ toString (h key_string)

/-- The outcome of one `assess_risk` call: the returned result, the state
after the call and the number of SignalSource adapter invocations the call
performed. -/
structure AssessOut where
  result : PyVal
  state : CacheState
  adapter_calls : ℕ

/-- `assess_risk` (risk_service.py lines 53-78) around an arbitrary fresh
computation: generate the cache key, return a truthy cached result as-is
with no adapter invocation (lines 60-65), otherwise run the fresh
assessment (which invokes the adapters) and store its result in the cache
(lines 557-559 of `_build_final_response`). -/
def assess_risk (h : String → ℤ)
    (fresh : PyVal → CacheState → PyVal × CacheState × ℕ)
    (d : PyVal) (st : CacheState) : AssessOut :=
  let key := generate_cache_key h d
  let (hit, st1) := cache_get st key
  match hit with
  | Option.some v =>
      if v.truthy then ⟨v, st1, 0⟩
      else
        let (r, st2, n) := fresh d st1
        ⟨r, cache_set st2 key r, n⟩
  | Option.none =>
      let (r, st2, n) := fresh d st1
      ⟨r, cache_set st2 key r, n⟩

/-! ## Helper lemmas -/

lemma pyRound_low (q : ℚ) (n : ℤ) (h1 : (n : ℚ) ≤ q) (h2 : q - n < 1/2) :
    pyRound q = n := by
  have hf : ⌊q⌋ = n := by
    rw [Int.floor_eq_iff]
    exact ⟨h1, by linarith⟩
  unfold pyRound
  rw [hf, if_pos h2]

lemma pyRound_high (q : ℚ) (n : ℤ) (h1 : (n : ℚ) ≤ q) (h3 : 1/2 < q - n) (h2 : q < n + 1) :
    pyRound q = n + 1 := by
  have hf : ⌊q⌋ = n := by
    rw [Int.floor_eq_iff]
    exact ⟨h1, by linarith⟩
  unfold pyRound
  rw [hf, if_neg (by linarith), if_pos h3]

/-- Evaluation of the per-entity sanctions contribution on a matched result
with numeric score and confidence: it is exactly `floored`. -/
lemma sanctions_entity_eval_of (r : List (String × PyVal)) (b c : ℚ)
    (hb : dictGet r "risk_score" (.num 0) = .num b)
    (hc : dictGet r "highest_confidence" (.num 0) = .num c)
    (hm : (dictGet r "matched" (.num 0)).truthy = true) :
    sanctions_entity_score r = .ok (.num (floored b c)) := by
  unfold sanctions_entity_score floored
  simp only [hb, hc, hm]
  norm_num [pyGE, pyLT, pyMaxLit]
  by_cases h95 : (95:ℚ) ≤ c
  · by_cases h80 : b < 80
    · simp [h95, h80]
    · simp only [h95, h80, decide_eq_true_eq, if_false, if_true, decide_eq_false_iff_not]
      have h70 : ¬ b < 70 := by intro h; exact h80 (by linarith)
      by_cases h85 : (85:ℚ) ≤ c <;>
        simp [h85, h70, h80, max_eq_left (le_of_not_lt h80)]
  · simp only [h95, if_false]
    by_cases h85 : (85:ℚ) ≤ c
    · by_cases h70 : b < 70
      · simp [h95, h85, h70]
      · simp [h95, h85, h70, max_eq_left (le_of_not_lt h70)]
    · simp [h95, h85]

/-- The same evaluation for the literal three-field result dict used in
concrete scenarios. -/
lemma sanctions_entity_eval (b c : ℚ) :
    sanctions_entity_score
      [("risk_score", .num b), ("matched", .num 1), ("highest_confidence", .num c)] =
      .ok (.num (floored b c)) := by
  refine sanctions_entity_eval_of _ b c ?_ ?_ ?_ <;>
    simp [dictGet, List.lookup, PyVal.truthy]

/-- The level returned by `_get_risk_level` lies in its spec interval. -/
lemma get_risk_level_mem (s : ℤ) : level_interval (get_risk_level s) s := by
  unfold get_risk_level level_interval
  split_ifs with h1 h2 h3 h4
  · exact Or.inr (Or.inr (Or.inr (Or.inr ⟨rfl, h1⟩)))
  · exact Or.inr (Or.inr (Or.inr (Or.inl ⟨rfl, h2, by omega⟩)))
  · exact Or.inr (Or.inr (Or.inl ⟨rfl, h3, by omega⟩))
  · exact Or.inr (Or.inl ⟨rfl, h4, by omega⟩)
  · exact Or.inl ⟨rfl, by omega⟩

/-- The spec intervals are disjoint: a level whose interval contains `s`
is the level `_get_risk_level` returns. -/
lemma level_interval_unique (s : ℤ) (l : String) (hl : level_interval l s) :
    l = get_risk_level s := by
  unfold get_risk_level
  rcases hl with ⟨rfl, h⟩ | ⟨rfl, h, h'⟩ | ⟨rfl, h, h'⟩ | ⟨rfl, h, h'⟩ | ⟨rfl, h⟩ <;>
    split_ifs <;> first | rfl | omega

/-- The three weight profiles of lines 272-292 are the only values
`select_weights` takes. -/
lemma select_weights_cases (s : ℚ) :
    select_weights s = ⟨0.8, 0.15, 0.03, 0.02⟩ ∨
    select_weights s = ⟨0.7, 0.2, 0.07, 0.03⟩ ∨
    select_weights s = ⟨0.4, 0.3, 0.2, 0.1⟩ := by
  unfold select_weights
  split_ifs <;> simp

/-- Each selected profile already sums to 1, so lines 295-296 leave it
unchanged. -/
lemma select_weights_normalized (s : ℚ) :
    (select_weights s).normalize = select_weights s ∧ (select_weights s).total = 1 := by
  rcases select_weights_cases s with h | h | h <;>
    rw [h] <;>
    constructor <;>
    norm_num [Weights.normalize, Weights.total, Weights.mk.injEq]

/-- Empty aggregator inputs: every component is 0, the weighted sum is 0,
the level is very_low and no factor is collected. -/
lemma inner_empty :
    calculate_risk_score_inner (.dict []) (.dict []) (.dict []) (.dict []) =
      .ok ⟨0, "very_low", [], ⟨0, 0, 0, 0⟩, Option.none⟩ := by
  have hrel : relationship_component (.dict []) = .ok 0 := by
    norm_num [relationship_component, dictGet, pyLen]
  unfold calculate_risk_score_inner
  rw [hrel]
  show Except.ok _ = _
  have hw : (select_weights 0).normalize = select_weights 0 :=
    (select_weights_normalized 0).1
  rw [hw]
  have hsw : select_weights 0 = ⟨0.4, 0.3, 0.2, 0.1⟩ := by
    norm_num [select_weights]
  rw [hsw]
  have hz : (0:ℚ) * (0.4:ℚ) + aggregate_scores (.dict []) "risk_score" 0 * 0.3 +
      ai_component (.dict []) * 0.2 + 0 * 0.1 = 0 := by
    norm_num [aggregate_scores, ai_component]
  rw [hz]
  have hround : pyRound 0 = 0 := pyRound_low 0 0 (by norm_num) (by norm_num)
  rw [hround]
  rfl

/-! ## Claim C1 -/

/-- C1 (confirmed).  For every assessment on which the aggregator does not
raise internally, the final `risk_score` is the rounded weighted sum of
the four component scores clamped to `[0, 100]`, and `risk_level` is the
unique level whose spec interval (`< 25` very_low, `25–39` low, `40–59`
medium, `60–74` high, `≥ 75` very_high) contains `risk_score`. -/
theorem C1_score_in_range_and_level_matches (sr wr ar rr : PyVal) (r : RiskCalculation)
    (h : calculate_risk_score_inner sr wr ar rr = .ok r) :
    0 ≤ r.risk_score ∧ r.risk_score ≤ 100 ∧
    r.risk_score = min (max (pyRound (weighted_total r.component_scores)) 0) 100 ∧
    level_interval r.risk_level r.risk_score ∧
    ∀ l, level_interval l r.risk_score → l = r.risk_level := by
  unfold calculate_risk_score_inner at h
  cases hs : sanctions_component sr with
  | error e => rw [hs] at h; exact absurd h (by simp)
  | ok s =>
    rw [hs] at h
    cases hr : relationship_component rr with
    | error e => rw [hr] at h; exact absurd h (by simp)
    | ok re =>
      rw [hr] at h
      simp only [Except.ok.injEq] at h
      subst h
      refine ⟨?_, ?_, rfl, get_risk_level_mem _, fun l hl => level_interval_unique _ l hl⟩
      · exact le_min (le_max_right _ _) (by norm_num)
      · exact min_le_right _ _

/-- Closed witness for C1: the all-empty assessment has score 0, in range,
with level very_low sitting in its interval. -/
theorem C1_witness :
    0 ≤ (RiskCalculation.mk 0 "very_low" [] ⟨0, 0, 0, 0⟩ Option.none).risk_score ∧
    (RiskCalculation.mk 0 "very_low" [] ⟨0, 0, 0, 0⟩ Option.none).risk_score ≤ 100 ∧
    level_interval (RiskCalculation.mk 0 "very_low" [] ⟨0, 0, 0, 0⟩ Option.none).risk_level
      (RiskCalculation.mk 0 "very_low" [] ⟨0, 0, 0, 0⟩ Option.none).risk_score :=
  let h := C1_score_in_range_and_level_matches (.dict []) (.dict []) (.dict []) (.dict [])
    ⟨0, "very_low", [], ⟨0, 0, 0, 0⟩, Option.none⟩ inner_empty
  ⟨h.1, h.2.1, h.2.2.2.1⟩

/-! ## Claim C2 -/

/-- C2 (confirmed).  For every matched sanctions result with numeric
provider score `b` and numeric highest confidence `c`, the per-entity
sanctions contribution is exactly `floored b c`, which never lowers the
provider score, is at least 80 when `c ≥ 95` and at least 70 when
`c ≥ 85`. -/
theorem C2_sanctions_floor_clamp (r : List (String × PyVal)) (b c : ℚ)
    (hb : dictGet r "risk_score" (.num 0) = .num b)
    (hc : dictGet r "highest_confidence" (.num 0) = .num c)
    (hm : (dictGet r "matched" (.num 0)).truthy = true) :
    sanctions_entity_score r = .ok (.num (floored b c)) ∧
    b ≤ floored b c ∧
    (95 ≤ c → 80 ≤ floored b c) ∧
    (85 ≤ c → 70 ≤ floored b c) := by
  refine ⟨sanctions_entity_eval_of r b c hb hc hm, ?_, ?_, ?_⟩
  · unfold floored
    split_ifs <;> simp [le_max_left]
  · intro h95
    unfold floored
    rw [if_pos h95]
    exact le_trans (by norm_num) (le_max_right b 80)
  · intro h85
    unfold floored
    split_ifs with h95
    · exact le_trans (by norm_num) (le_max_right b 80)
    · exact le_max_right b 70

/-- Closed witness for C2: a matched result with provider score 50 and
confidence 96 is clamped to the floor 80. -/
theorem C2_witness :
    sanctions_entity_score
      [("risk_score", .num 50), ("matched", .num 1), ("highest_confidence", .num 96)] =
      .ok (.num (floored 50 96)) ∧
    (50:ℚ) ≤ floored 50 96 ∧ 80 ≤ floored 50 96 ∧ 70 ≤ floored 50 96 :=
  let h := C2_sanctions_floor_clamp
    [("risk_score", .num 50), ("matched", .num 1), ("highest_confidence", .num 96)]
    50 96 (by simp [dictGet, List.lookup]) (by simp [dictGet, List.lookup])
    (by simp [dictGet, List.lookup, PyVal.truthy])
  ⟨h.1, h.2.1, h.2.2.1 (by norm_num), h.2.2.2 (by norm_num)⟩

/-! ## Claim C3 -/

/-- C3 (confirmed).  Exactly one weight profile is selected by the
sanctions contribution — `≥ 80` (including exactly 80) gives
`{0.80, 0.15, 0.03, 0.02}`, `≥ 60` gives `{0.70, 0.20, 0.07, 0.03}`,
otherwise `{0.40, 0.30, 0.20, 0.10}` — and re-normalization leaves the
selected profile unchanged with total exactly 1. -/
theorem C3_weight_selection (s : ℚ) :
    (80 ≤ s → select_weights s = ⟨0.8, 0.15, 0.03, 0.02⟩) ∧
    (60 ≤ s → s < 80 → select_weights s = ⟨0.7, 0.2, 0.07, 0.03⟩) ∧
    (s < 60 → select_weights s = ⟨0.4, 0.3, 0.2, 0.1⟩) ∧
    (select_weights s).normalize = select_weights s ∧
    ((select_weights s).normalize).total = 1 := by
  have hn := select_weights_normalized s
  refine ⟨?_, ?_, ?_, hn.1, by rw [hn.1]; exact hn.2⟩
  · intro h
    unfold select_weights
    rw [if_pos h]
  · intro h60 h80
    unfold select_weights
    rw [if_neg (by linarith), if_pos h60]
  · intro h60
    unfold select_weights
    rw [if_neg (by linarith), if_neg (by linarith)]

/-- Closed witness for C3: a sanctions contribution of exactly 80 selects
the escalated profile, 79 the middle profile, and both normalize to
themselves with total 1. -/
theorem C3_witness :
    select_weights 80 = ⟨0.8, 0.15, 0.03, 0.02⟩ ∧
    select_weights 79 = ⟨0.7, 0.2, 0.07, 0.03⟩ ∧
    ((select_weights 80).normalize).total = 1 :=
  ⟨(C3_weight_selection 80).1 (by norm_num),
   (C3_weight_selection 79).2.1 (by norm_num) (by norm_num),
   (C3_weight_selection 80).2.2.2.2⟩

/-! ## Claim C4 -/

/-- Matched single-entity sanctions input with provider score 79 and the
given highest confidence. -/
def c4_sanctions (c : ℚ) : PyVal :=
  .dict [("person", .dict [("risk_score", .num 79), ("matched", .num 1),
    ("highest_confidence", .num c)])]

/-- Single-entity web result with risk score 100. -/
def c4_web : PyVal := .dict [("person", .dict [("risk_score", .num 100)])]

/-- AI result with risk score 100 and no other numeric field. -/
def c4_ai : PyVal := .dict [("risk_score", .num 100)]

/-- Relationship analysis with 20 created relationships. -/
def c4_rel : PyVal :=
  .dict [("created_relationships", .list (List.replicate 20 (.num 0)))]

lemma c4_sanctions_70 : sanctions_component (c4_sanctions 70) = .ok 79 := by
  simp [sanctions_component, c4_sanctions, sanctions_fold, sanctions_entity_eval, pyMaxAcc]
  norm_num [floored]

lemma c4_sanctions_96 : sanctions_component (c4_sanctions 96) = .ok 80 := by
  simp [sanctions_component, c4_sanctions, sanctions_fold, sanctions_entity_eval, pyMaxAcc]
  norm_num [floored]

lemma c4_web_score : aggregate_scores c4_web "risk_score" 0 = 100 := by
  simp [aggregate_scores, c4_web, dictGet]

lemma c4_ai_score : ai_component c4_ai = 100 := by
  simp [ai_component, c4_ai, aggregate_scores, dictGet]

lemma c4_rel_score : relationship_component c4_rel = .ok 100 := by
  simp [relationship_component, c4_rel, dictGet, pyLen]
  norm_num

lemma c4_score_70 :
    (calculate_risk_score (c4_sanctions 70) c4_web c4_ai c4_rel).risk_score = 85 := by
  rw [calculate_risk_score, calculate_risk_score_inner, c4_sanctions_70, c4_rel_score,
    c4_web_score]
  simp only [c4_ai_score]
  have hw : (select_weights 79).normalize = ⟨0.7, 0.2, 0.07, 0.03⟩ := by
    rw [(select_weights_normalized 79).1]
    norm_num [select_weights]
  rw [hw]
  have hsum : (79 * (0.7:ℚ) + 100 * 0.2 + 100 * 0.07 + 100 * 0.03) = 853/10 := by
    norm_num
  rw [hsum, pyRound_low (853/10) 85 (by norm_num) (by norm_num)]
  omega

lemma c4_score_96 :
    (calculate_risk_score (c4_sanctions 96) c4_web c4_ai c4_rel).risk_score = 84 := by
  rw [calculate_risk_score, calculate_risk_score_inner, c4_sanctions_96, c4_rel_score,
    c4_web_score]
  simp only [c4_ai_score]
  have hw : (select_weights 80).normalize = ⟨0.8, 0.15, 0.03, 0.02⟩ := by
    rw [(select_weights_normalized 80).1]
    norm_num [select_weights]
  rw [hw]
  have hsum : (80 * (0.8:ℚ) + 100 * 0.15 + 100 * 0.03 + 100 * 0.02) = 84 := by
    norm_num
  rw [hsum, pyRound_low 84 84 (by norm_num) (by norm_num)]
  omega

/-- C4 counterexample.  With web, AI and relationship components all at
100 and a matched sanctions provider score of 79, raising the highest
confidence from 70 to 96 moves the sanctions contribution from 79 to 80,
flips the weight profile to the sanctions-dominated one, and DECREASES the
final risk score from 85 to 84 — the claimed monotonicity fails. -/
theorem C4_counterexample :
    (calculate_risk_score (c4_sanctions 96) c4_web c4_ai c4_rel).risk_score <
      (calculate_risk_score (c4_sanctions 70) c4_web c4_ai c4_rel).risk_score := by
  rw [c4_score_70, c4_score_96]
  norm_num

/-- C4 (corrected).  What does hold: for a matched entity with numeric
provider score `b`, the sanctions CONTRIBUTION at confidence 96 is
`max b 80`, at confidence 70 it is `b`, so the contribution itself never
decreases; the final risk_score may still decrease because the raised
contribution can shift the weight profile (see the counterexample). -/
theorem C4_contribution_monotone (b : ℚ) :
    sanctions_entity_score
      [("risk_score", .num b), ("matched", .num 1), ("highest_confidence", .num 70)] =
      .ok (.num b) ∧
    sanctions_entity_score
      [("risk_score", .num b), ("matched", .num 1), ("highest_confidence", .num 96)] =
      .ok (.num (max b 80)) ∧
    b ≤ max b 80 := by
  refine ⟨?_, ?_, le_max_left b 80⟩
  · rw [sanctions_entity_eval b 70]
    norm_num [floored]
  · rw [sanctions_entity_eval b 96]
    norm_num [floored]

/-! ## Claim C6 -/

/-- C6 counterexample.  On empty aggregator inputs the assessment does
complete with score 0 and level very_low, but `risk_factors` is the EMPTY
list: no synthetic `no significant risk indicators found` factor is
emitted, so the claimed singleton list (and the claim that `risk_factors`
is never empty) fails. -/
theorem C6_counterexample :
    (calculate_risk_score (.dict []) (.dict []) (.dict []) (.dict [])).risk_factors = [] ∧
    (calculate_risk_score (.dict []) (.dict []) (.dict []) (.dict [])).risk_score = 0 ∧
    (calculate_risk_score (.dict []) (.dict []) (.dict []) (.dict [])).risk_level =
      "very_low" := by
  unfold calculate_risk_score
  rw [inner_empty]
  exact ⟨rfl, rfl, rfl⟩

/-- C6 (corrected).  When no source produced any factor (empty aggregator
inputs), the assessment completes with `risk_score = 0`,
`risk_level = very_low` and an EMPTY `risk_factors` list — the synthetic
factor of the claim exists only in the superseded legacy
`RiskCalculator._compile_risk_factors`, not in this path. -/
theorem C6_empty_input_result :
    calculate_risk_score (.dict []) (.dict []) (.dict []) (.dict []) =
      ⟨0, "very_low", [], ⟨0, 0, 0, 0⟩, Option.none⟩ := by
  unfold calculate_risk_score
  rw [inner_empty]

/-! ## Claim C7 -/

/-- Replaying a list of successful emissions keeps every one of them, in
order, with no error. -/
lemma takeUntilError_map_ok (f : PyVal → RiskFactor) (xs : List PyVal) :
    takeUntilError (xs.map (fun i => .ok (f i))) = (xs.map f, Option.none) := by
  induction xs with
  | nil => rfl
  | cons x xs ih => simp [takeUntilError, ih]

/-- Two entities reporting the identical web risk indicator. -/
def c7_web : PyVal :=
  .dict [("person", .dict [("risk_indicators", .list [.str "fraud"])]),
         ("company", .dict [("risk_indicators", .list [.str "fraud"])])]

/-- C7 counterexample.  Two web results with the identical indicator
`fraud` yield TWO risk factors with the same `(source, description)` pair —
`_collect_risk_factors` performs no deduplication, so the claimed collapse
to a single factor fails. -/
theorem C7_counterexample :
    collect_risk_factors (.dict []) c7_web (.dict []) (.dict []) =
      [⟨"web_search", "web_indicator", .str "fraud", .num 0.7, "medium"⟩,
       ⟨"web_search", "web_indicator", .str "fraud", .num 0.7, "medium"⟩] := by
  rfl

/-- C7 (corrected).  No deduplication happens: for web-only inputs the
compiled factor list is exactly one factor per emitted indicator, in
emission order, duplicates of the same `(source, description)` pair
included, each with its emitted confidence 0.7. -/
theorem C7_no_deduplication (inds1 inds2 : List PyVal) :
    collect_risk_factors (.dict [])
      (.dict [("person", .dict [("risk_indicators", .list inds1)]),
              ("company", .dict [("risk_indicators", .list inds2)])])
      (.dict []) (.dict []) =
      (inds1 ++ inds2).map
        (fun i => ⟨"web_search", "web_indicator", i, .num 0.7, "medium"⟩) := by
  unfold collect_risk_factors
  have hs : sanctions_emissions (.dict []) = [] := rfl
  have ha : ai_emissions (.dict []) = [] := rfl
  have hr : relationship_emissions (.dict []) = [] := rfl
  have hw : web_emissions
      (.dict [("person", .dict [("risk_indicators", .list inds1)]),
              ("company", .dict [("risk_indicators", .list inds2)])]) =
      (inds1 ++ inds2).map (fun i =>
        .ok ⟨"web_search", "web_indicator", i, .num 0.7, "medium"⟩) := by
    simp [web_emissions, pyIterList, dictGet, List.lookup]
  rw [hs, hw, ha, hr, List.nil_append, List.append_nil, List.append_nil,
    takeUntilError_map_ok]

/-! ## Claim C8 -/

/-- A sanctions result whose provider score is the string `high`: the
comparison `base_score < 80` in the aggregator raises a `TypeError`. -/
def c8_sanctions : PyVal :=
  .dict [("person", .dict [("risk_score", .str "high"), ("matched", .num 1),
    ("highest_confidence", .num 96)])]

/-- C8 counterexample.  An exception inside the aggregator arithmetic
(comparing the string score against 80) does NOT propagate: the
surrounding `except` of `_calculate_risk_score` swallows it and returns
the default result with score 0 and level `unknown`, so the claimed hard
assessment failure never reaches the caller. -/
theorem C8_counterexample :
    calculate_risk_score_inner c8_sanctions (.dict []) (.dict []) (.dict []) =
      .error "TypeError: unorderable types" ∧
    calculate_risk_score c8_sanctions (.dict []) (.dict []) (.dict []) =
      ⟨0, "unknown", [], ⟨0, 0, 0, 0⟩, Option.some "TypeError: unorderable types"⟩ := by
  constructor
  · rfl
  · unfold calculate_risk_score
    rw [show calculate_risk_score_inner c8_sanctions (.dict []) (.dict []) (.dict []) =
      .error "TypeError: unorderable types" from rfl]

/-- C8 (corrected).  Every internal aggregation exception is caught inside
`_calculate_risk_score` itself and replaced by the default result
`risk_score 0, risk_level unknown, no factors, zero components` carrying
the error message; nothing propagates to the caller. -/
theorem C8_caught_not_propagated (sr wr ar rr : PyVal) (e : String)
    (h : calculate_risk_score_inner sr wr ar rr = .error e) :
    calculate_risk_score sr wr ar rr =
      ⟨0, "unknown", [], ⟨0, 0, 0, 0⟩, Option.some e⟩ := by
  unfold calculate_risk_score
  rw [h]

/-- Closed witness for C8: the string-score input is caught and
defaulted. -/
theorem C8_witness :
    calculate_risk_score c8_sanctions (.dict []) (.list []) (.dict []) =
      ⟨0, "unknown", [], ⟨0, 0, 0, 0⟩, Option.some "TypeError: unorderable types"⟩ :=
  C8_caught_not_propagated c8_sanctions (.dict []) (.list []) (.dict [])
    "TypeError: unorderable types" rfl

/-! ## Claim C10 -/

/-- Projection of the component scores through the success path of the
aggregator. -/
lemma components_eval (sr wr ar rr : PyVal) (s re : ℚ)
    (hs : sanctions_component sr = .ok s)
    (hr : relationship_component rr = .ok re) :
    (calculate_risk_score sr wr ar rr).component_scores =
      ⟨s, aggregate_scores wr "risk_score" 0, ai_component ar, re⟩ := by
  unfold calculate_risk_score calculate_risk_score_inner
  rw [hs, hr]

/-- Two matched per-entity sanctions results with the given provider
scores and confidences. -/
def two_sanctions (b1 c1 b2 c2 : ℚ) : PyVal :=
  .dict [("person", .dict [("risk_score", .num b1), ("matched", .num 1),
           ("highest_confidence", .num c1)]),
         ("company", .dict [("risk_score", .num b2), ("matched", .num 1),
           ("highest_confidence", .num c2)])]

/-- Two per-entity web results with the given risk scores. -/
def two_web (w1 w2 : ℚ) : PyVal :=
  .dict [("person", .dict [("risk_score", .num w1)]),
         ("company", .dict [("risk_score", .num w2)])]

/-- An AI summary carrying its two numeric fields, the risk score and the
confidence (the shape `AIService.summarize_search_results` returns). -/
def ai_result (a1 a2 : ℚ) : PyVal :=
  .dict [("risk_score", .num a1), ("confidence", .num a2)]

/-- A relationship analysis with the given created relationships. -/
def rel_result (rs : List PyVal) : PyVal :=
  .dict [("created_relationships", .list rs)]

/-- C10 counterexample.  An AI result with `risk_score 100` and
`confidence 0.8` contributes 50.4, not 100: `aggregate_scores` averages
ALL numeric top-level values of the AI dict, so the AI component is not
the single AI risk score. -/
theorem C10_counterexample :
    (calculate_risk_score (.dict []) (.dict []) (ai_result 100 0.8)
      (.dict [])).component_scores.ai_analysis = 50.4 ∧
    pyLookup (ai_result 100 0.8) "risk_score" = Option.some (.num 100) ∧
    (50.4 : ℚ) ≠ 100 := by
  refine ⟨?_, rfl, by norm_num⟩
  rw [components_eval (.dict []) (.dict []) (ai_result 100 0.8) (.dict []) 0 0 rfl
    (by norm_num [relationship_component, dictGet, pyLen])]
  show ai_component (ai_result 100 0.8) = 50.4
  simp [ai_component, ai_result, aggregate_scores, dictGet]
  norm_num

/-- C10 (corrected).  For a two-entity assessment the component scores
are: sanctions = the maximum (together with the initial 0) of the
per-entity floor-clamped scores; web = the arithmetic mean of the
per-entity web risk scores; relationships = 5 points per created
relationship with no cap; but the AI component is the MEAN of the numeric
top-level fields of the AI result (risk score and confidence here), not
the AI risk score alone. -/
theorem C10_combination_rule (b1 c1 b2 c2 w1 w2 a1 a2 : ℚ) (rs : List PyVal) :
    (calculate_risk_score (two_sanctions b1 c1 b2 c2) (two_web w1 w2)
      (ai_result a1 a2) (rel_result rs)).component_scores =
      ⟨max (max 0 (floored b1 c1)) (floored b2 c2), (w1 + w2) / 2,
       (a1 + a2) / 2, (rs.length : ℚ) * 5⟩ := by
  have hs : sanctions_component (two_sanctions b1 c1 b2 c2) =
      .ok (max (max 0 (floored b1 c1)) (floored b2 c2)) := by
    simp [sanctions_component, two_sanctions, sanctions_fold,
      sanctions_entity_eval, pyMaxAcc]
  have hr : relationship_component (rel_result rs) = .ok ((rs.length : ℚ) * 5) := by
    simp [relationship_component, rel_result, dictGet, pyLen]
  rw [components_eval _ _ _ _ _ _ hs hr]
  have hw : aggregate_scores (two_web w1 w2) "risk_score" 0 = (w1 + w2) / 2 := by
    simp [aggregate_scores, two_web, dictGet]
  have ha : ai_component (ai_result a1 a2) = (a1 + a2) / 2 := by
    simp [ai_component, ai_result, aggregate_scores, dictGet]
  rw [hw, ha]

/-! ## Claim C9 -/

/-- C9 counterexample.  A timed-out sanctions call is replaced by the
neutral fallback result, but that fallback carries NO `status` key at all
(and neither does the web fallback): the claimed `timed_out`/`errored`
status marker does not exist. -/
theorem C9_counterexample :
    gather_sanctions (fun _ => .error "timed out")
      [("person", .dict [("name", .str "Jane")])] =
      [("person", sanctions_fallback)] ∧
    pyLookup sanctions_fallback "status" = Option.none ∧
    pyLookup web_fallback "status" = Option.none ∧
    pyLookup sanctions_fallback "risk_score" = Option.some (.num 0) := by
  exact ⟨rfl, rfl, rfl, rfl⟩

/-- C9 (corrected).  A failing per-entity sanctions call does not abort
the others: its result is replaced by the neutral fallback (no matches,
`matched` false, risk score 0) while the other entity keeps its real
result, and the assessment proceeds to the aggregator over exactly those
gathered results; the fallback, however, carries no `status` marker. -/
theorem C9_failure_isolated (check search : String × PyVal → Except String PyVal)
    (e1 e2 : String × PyVal) (err : String) (r2 : PyVal)
    (h1 : check e1 = .error err) (h2 : check e2 = .ok r2)
    (ai rel : PyVal) :
    gather_sanctions check [e1, e2] = [(e1.1, sanctions_fallback), (e2.1, r2)] ∧
    pyLookup sanctions_fallback "matches" = Option.some (.list []) ∧
    pyLookup sanctions_fallback "matched" = Option.some (.num 0) ∧
    pyLookup sanctions_fallback "risk_score" = Option.some (.num 0) ∧
    pyLookup sanctions_fallback "status" = Option.none ∧
    sequential_risk check search [e1, e2] ai rel =
      calculate_risk_score (.dict [(e1.1, sanctions_fallback), (e2.1, r2)])
        (.dict (gather_web search [e1, e2])) ai rel := by
  have hg : gather_sanctions check [e1, e2] = [(e1.1, sanctions_fallback), (e2.1, r2)] := by
    simp [gather_sanctions, h1, h2]
  refine ⟨hg, rfl, rfl, rfl, rfl, ?_⟩
  unfold sequential_risk
  rw [hg]

/-- Closed witness for C9: a concrete adapter that times out on the person
but answers for the company. -/
theorem C9_witness :
    gather_sanctions
      (fun e => if e.1 = "person" then .error "timed out"
                else .ok (.dict [("matched", .num 0), ("risk_score", .num 0)]))
      [("person", .dict []), ("company", .dict [])] =
      [("person", sanctions_fallback),
       ("company", .dict [("matched", .num 0), ("risk_score", .num 0)])] ∧
    pyLookup sanctions_fallback "status" = Option.none :=
  ⟨(C9_failure_isolated
      (fun e => if e.1 = "person" then .error "timed out"
                else .ok (.dict [("matched", .num 0), ("risk_score", .num 0)]))
      (fun _ => .ok (.dict []))
      ("person", .dict []) ("company", .dict []) "timed out"
      (.dict [("matched", .num 0), ("risk_score", .num 0)])
      rfl rfl (.dict []) (.dict [])).1,
   (C9_failure_isolated
      (fun e => if e.1 = "person" then .error "timed out"
                else .ok (.dict [("matched", .num 0), ("risk_score", .num 0)]))
      (fun _ => .ok (.dict []))
      ("person", .dict []) ("company", .dict []) "timed out"
      (.dict [("matched", .num 0), ("risk_score", .num 0)])
      rfl rfl (.dict []) (.dict [])).2.2.2.2.1⟩

/-! ## Claim C5 -/


lemma lookup_map_replace_self (kvs : List (String × PyVal)) (k : String) (v : PyVal)
    (h : (kvs.lookup k).isSome) :
    (kvs.map (fun kv => if kv.1 = k then (k, v) else kv)).lookup k = Option.some v := by
  induction kvs with
  | nil => simp [List.lookup] at h
  | cons hd tl ih =>
    obtain ⟨a, b⟩ := hd
    rw [List.map_cons]
    by_cases hk : a = k
    · subst hk
      rw [show (if (a, b).1 = a then (a, v) else (a, b)) = (a, v) from if_pos rfl]
      simp [List.lookup]
    · rw [show (if (a, b).1 = k then (k, v) else (a, b)) = (a, b) from if_neg hk]
      have hbk : (k == a) = false := beq_eq_false_iff_ne.mpr (fun he => hk he.symm)
      have h2 : (tl.lookup k).isSome := by
        have hstep : List.lookup k ((a, b) :: tl) = List.lookup k tl := by
          simp [List.lookup, hbk]
        rwa [hstep] at h
      have hstep2 : List.lookup k
          ((a, b) :: tl.map (fun kv => if kv.1 = k then (k, v) else kv)) =
          List.lookup k (tl.map (fun kv => if kv.1 = k then (k, v) else kv)) := by
        simp [List.lookup, hbk]
      rw [hstep2, ih h2]

lemma lookup_map_replace_other (kvs : List (String × PyVal)) (k : String) (v : PyVal)
    (k2 : String) (hne : k2 ≠ k) :
    (kvs.map (fun kv => if kv.1 = k then (k, v) else kv)).lookup k2 = kvs.lookup k2 := by
  induction kvs with
  | nil => simp
  | cons hd tl ih =>
    obtain ⟨a, b⟩ := hd
    rw [List.map_cons]
    by_cases hk : a = k
    · subst hk
      rw [show (if (a, b).1 = a then (a, v) else (a, b)) = (a, v) from if_pos rfl]
      have hbk : (k2 == a) = false := beq_eq_false_iff_ne.mpr hne
      simp [List.lookup, hbk, ih]
    · rw [show (if (a, b).1 = k then (k, v) else (a, b)) = (a, b) from if_neg hk]
      by_cases hk2 : k2 = a
      · subst hk2
        simp [List.lookup]
      · have hbk : (k2 == a) = false := beq_eq_false_iff_ne.mpr hk2
        simp [List.lookup, hbk, ih]

lemma lookup_append_single_self (kvs : List (String × PyVal)) (k : String) (v : PyVal)
    (h : kvs.lookup k = Option.none) :
    (kvs ++ [(k, v)]).lookup k = Option.some v := by
  induction kvs with
  | nil => simp [List.lookup]
  | cons hd tl ih =>
    obtain ⟨a, b⟩ := hd
    by_cases hk : k = a
    · subst hk
      simp [List.lookup] at h
    · have hbk : (k == a) = false := beq_eq_false_iff_ne.mpr hk
      have h2 : tl.lookup k = Option.none := by
        have hstep : List.lookup k ((a, b) :: tl) = List.lookup k tl := by
          simp [List.lookup, hbk]
        rwa [hstep] at h
      rw [List.cons_append]
      have hstep2 : List.lookup k ((a, b) :: (tl ++ [(k, v)])) =
          List.lookup k (tl ++ [(k, v)]) := by
        simp [List.lookup, hbk]
      rw [hstep2, ih h2]

lemma lookup_append_single_other (kvs : List (String × PyVal)) (k : String) (v : PyVal)
    (k2 : String) (hne : k2 ≠ k) :
    (kvs ++ [(k, v)]).lookup k2 = kvs.lookup k2 := by
  induction kvs with
  | nil =>
    have hbk : (k2 == k) = false := beq_eq_false_iff_ne.mpr hne
    simp [List.lookup, hbk]
  | cons hd tl ih =>
    obtain ⟨a, b⟩ := hd
    rw [List.cons_append]
    by_cases hk2 : k2 = a
    · subst hk2
      simp [List.lookup]
    · have hbk : (k2 == a) = false := beq_eq_false_iff_ne.mpr hk2
      simp [List.lookup, hbk, ih]

lemma dict_update_lookup_self (kvs : List (String × PyVal)) (k : String) (v : PyVal) :
    (dict_update kvs k v).lookup k = Option.some v := by
  unfold dict_update
  by_cases h : (kvs.lookup k).isSome
  · rw [if_pos h]
    exact lookup_map_replace_self kvs k v h
  · rw [if_neg h]
    refine lookup_append_single_self kvs k v ?_
    cases hv : kvs.lookup k with
    | some w => rw [hv] at h; simp at h
    | none => rfl

lemma dict_update_lookup_other (kvs : List (String × PyVal)) (k : String) (v : PyVal)
    (k2 : String) (hne : k2 ≠ k) :
    (dict_update kvs k v).lookup k2 = kvs.lookup k2 := by
  unfold dict_update
  by_cases h : (kvs.lookup k).isSome
  · rw [if_pos h]
    exact lookup_map_replace_other kvs k v k2 hne
  · rw [if_neg h]
    exact lookup_append_single_other kvs k v k2 hne

lemma dict_update_ne_nil (kvs : List (String × PyVal)) (k : String) (v : PyVal) :
    dict_update kvs k v ≠ [] := by
  unfold dict_update
  by_cases h : (kvs.lookup k).isSome
  · rw [if_pos h]
    cases kvs with
    | nil => simp [List.lookup] at h
    | cons hd tl => simp
  · rw [if_neg h]
    simp

/-- The stored cache dict always reports the write time under
`cached_at`. -/
lemma with_cache_meta_cached_at (kvs : List (String × PyVal)) (now : ℚ) (key : String) :
    pyLookup (with_cache_meta (.dict kvs) now key) "cached_at" =
      Option.some (.num now) := by
  simp only [with_cache_meta, pyLookup]
  rw [dict_update_lookup_other _ _ _ _ (by decide), dict_update_lookup_self]

/-- Every key other than the two metadata keys reads through the stored
cache dict unchanged, so score, factors and their order survive the cache
round trip. -/
lemma with_cache_meta_other (kvs : List (String × PyVal)) (now : ℚ) (key : String)
    (k : String) (h1 : k ≠ "cached_at") (h2 : k ≠ "cache_key") :
    pyLookup (with_cache_meta (.dict kvs) now key) k = kvs.lookup k := by
  simp only [with_cache_meta, pyLookup]
  rw [dict_update_lookup_other _ _ _ _ h2, dict_update_lookup_other _ _ _ _ h1]

/-- The stored cache dict is truthy (it is never the empty dict). -/
lemma with_cache_meta_truthy (kvs : List (String × PyVal)) (now : ℚ) (key : String) :
    (with_cache_meta (.dict kvs) now key).truthy = true := by
  simp only [with_cache_meta, PyVal.truthy]
  cases hdu : dict_update (dict_update kvs "cached_at" (.num now)) "cache_key" (.str key) with
  | nil => exact absurd hdu (dict_update_ne_nil _ _ _)
  | cons hd tl => simp [List.isEmpty]

/-- Reading the cache within the TTL right after a write returns the
stored dict and changes nothing. -/
lemma cache_get_after_set (st2 : CacheState) (key : String) (kvs : List (String × PyVal))
    (dl : ℚ) (hdl : dl ≤ st2.ttl) :
    cache_get ((cache_set st2 key (.dict kvs)).advance dl) key =
      (Option.some (with_cache_meta (.dict kvs) st2.now key),
       (cache_set st2 key (.dict kvs)).advance dl) := by
  simp only [cache_get, cache_set, CacheState.advance, dict_update_lookup_self,
    with_cache_meta_cached_at]
  rw [show st2.now + dl - st2.now = dl from by ring]
  rw [if_neg (not_lt.mpr hdl)]

/-- Core of the cache-idempotence analysis: a first call on a missing
fingerprint computes fresh and stores; a second call within the TTL hits
the cache, performs no adapter invocation, and returns the stored copy —
the first result extended with the `cached_at`/`cache_key` metadata. -/
lemma second_call_hits_cache (h : String → ℤ)
    (fresh : PyVal → CacheState → PyVal × CacheState × ℕ)
    (d : PyVal) (st : CacheState) (dl : ℚ) (kvs : List (String × PyVal))
    (hmiss : st.store.lookup ("risknet:" ++ generate_cache_key h d) = Option.none)
    (hres : (fresh d st).1 = .dict kvs)
    (hnc : kvs.lookup "cached_at" = Option.none)
    (hdlttl : dl ≤ ((fresh d st).2.1).ttl) :
    (assess_risk h fresh d ((assess_risk h fresh d st).state.advance dl)).adapter_calls
      = 0 ∧
    (assess_risk h fresh d ((assess_risk h fresh d st).state.advance dl)).result =
      with_cache_meta ((assess_risk h fresh d st).result) ((fresh d st).2.1).now
        (generate_cache_key h d) ∧
    (∀ k, k ≠ "cached_at" → k ≠ "cache_key" →
      pyLookup ((assess_risk h fresh d
        ((assess_risk h fresh d st).state.advance dl)).result) k =
      pyLookup ((assess_risk h fresh d st).result) k) ∧
    pyLookup ((assess_risk h fresh d
      ((assess_risk h fresh d st).state.advance dl)).result) "cached_at" =
      Option.some (.num ((fresh d st).2.1).now) ∧
    pyLookup ((assess_risk h fresh d st).result) "cached_at" = Option.none := by
  have hget1 : cache_get st (generate_cache_key h d) = (Option.none, st) := by
    simp only [cache_get, hmiss]
  have hout1 : assess_risk h fresh d st =
      ⟨(fresh d st).1,
       cache_set (fresh d st).2.1 (generate_cache_key h d) (fresh d st).1,
       (fresh d st).2.2⟩ := by
    simp only [assess_risk, hget1]
  have hstate : (assess_risk h fresh d st).state =
      cache_set (fresh d st).2.1 (generate_cache_key h d) (.dict kvs) := by
    rw [hout1, hres]
  have hres1 : (assess_risk h fresh d st).result = .dict kvs := by
    rw [hout1]
    exact hres
  have hout2 : assess_risk h fresh d ((assess_risk h fresh d st).state.advance dl) =
      ⟨with_cache_meta (.dict kvs) ((fresh d st).2.1).now (generate_cache_key h d),
       (assess_risk h fresh d st).state.advance dl, 0⟩ := by
    conv_lhs => rw [hstate]
    simp only [assess_risk, cache_get_after_set (fresh d st).2.1
      (generate_cache_key h d) kvs dl hdlttl, with_cache_meta_truthy, if_true]
    simp only [hget1, hres]
  refine ⟨?_, ?_, ?_, ?_, ?_⟩
  · rw [hout2]
  · rw [hout2, hres1]
  · intro k hk1 hk2
    rw [hout2, hres1]
    show pyLookup (with_cache_meta (.dict kvs) _ _) k = _
    rw [with_cache_meta_other kvs _ _ k hk1 hk2]
    rfl
  · rw [hout2]
    exact with_cache_meta_cached_at kvs _ _
  · rw [hres1]
    exact hnc

/-- C5 (corrected).  Under a working cache, a second `assess_risk` call
with identical entity fields within the TTL performs 0 adapter invocations
and returns the stored copy of the first result: every assessment field
(score, factors, order) reads back unchanged, but the returned dict is the
first result EXTENDED with the `cached_at` write timestamp (and a
`cache_key` entry), so it is not byte-identical to the first call output. -/
theorem C5_cache_hit_second_call (h : String → ℤ)
    (fresh : PyVal → CacheState → PyVal × CacheState × ℕ)
    (d : PyVal) (st : CacheState) (dl : ℚ) (kvs : List (String × PyVal))
    (hmiss : st.store.lookup ("risknet:" ++ generate_cache_key h d) = Option.none)
    (hres : (fresh d st).1 = .dict kvs)
    (hnc : kvs.lookup "cached_at" = Option.none)
    (hdlttl : dl ≤ ((fresh d st).2.1).ttl) :
    (assess_risk h fresh d ((assess_risk h fresh d st).state.advance dl)).adapter_calls
      = 0 ∧
    (assess_risk h fresh d ((assess_risk h fresh d st).state.advance dl)).result =
      with_cache_meta ((assess_risk h fresh d st).result) ((fresh d st).2.1).now
        (generate_cache_key h d) ∧
    (∀ k, k ≠ "cached_at" → k ≠ "cache_key" →
      pyLookup ((assess_risk h fresh d
        ((assess_risk h fresh d st).state.advance dl)).result) k =
      pyLookup ((assess_risk h fresh d st).result) k) ∧
    pyLookup ((assess_risk h fresh d
      ((assess_risk h fresh d st).state.advance dl)).result) "cached_at" =
      Option.some (.num ((fresh d st).2.1).now) ∧
    pyLookup ((assess_risk h fresh d st).result) "cached_at" = Option.none :=
  second_call_hits_cache h fresh d st dl kvs hmiss hres hnc hdlttl

/-- A concrete fresh computation standing in for the full fan-out: it
returns a fixed assessment dict and reports 3 adapter invocations. -/
def c5_fresh : PyVal → CacheState → PyVal × CacheState × ℕ :=
  fun _ st => (.dict [("risk_score", .num 7)], st, 3)

/-- A process-stable stand-in for the Python string hash. -/
def c5_hash : String → ℤ := fun _ => 0

/-- The empty cache at time 0 with the default 3600s TTL. -/
def c5_st0 : CacheState := ⟨[], 0, 3600⟩

/-- C5 counterexample.  For a concrete run (empty cache, TTL 3600, second
call 10 seconds later) the second call invokes no adapter and reads back
the same `risk_score`, but its returned dict is NOT byte-identical to the
first call result: the stored copy carries the extra `cached_at`
timestamp the first result never had. -/
theorem C5_counterexample :
    (assess_risk c5_hash c5_fresh (.dict [])
        ((assess_risk c5_hash c5_fresh (.dict []) c5_st0).state.advance 10)).adapter_calls
      = 0 ∧
    pyLookup ((assess_risk c5_hash c5_fresh (.dict [])
        ((assess_risk c5_hash c5_fresh (.dict []) c5_st0).state.advance 10)).result)
        "risk_score" =
      pyLookup ((assess_risk c5_hash c5_fresh (.dict []) c5_st0).result) "risk_score" ∧
    (assess_risk c5_hash c5_fresh (.dict [])
        ((assess_risk c5_hash c5_fresh (.dict []) c5_st0).state.advance 10)).result ≠
      (assess_risk c5_hash c5_fresh (.dict []) c5_st0).result := by
  obtain ⟨h0, h1, h2, h3, h4⟩ := second_call_hits_cache c5_hash c5_fresh (.dict [])
    c5_st0 10 [("risk_score", .num 7)] rfl rfl rfl (by norm_num [c5_fresh, c5_st0])
  refine ⟨h0, h2 "risk_score" (by decide) (by decide), ?_⟩
  intro heq
  rw [heq, h4] at h3
  exact Option.noConfusion h3

/-- Closed witness for C5: the concrete second call performs no adapter
invocation and returns the metadata-extended first result. -/
theorem C5_witness :
    (assess_risk c5_hash c5_fresh (.dict [])
        ((assess_risk c5_hash c5_fresh (.dict []) c5_st0).state.advance 10)).adapter_calls
      = 0 ∧
    (assess_risk c5_hash c5_fresh (.dict [])
        ((assess_risk c5_hash c5_fresh (.dict []) c5_st0).state.advance 10)).result =
      with_cache_meta ((assess_risk c5_hash c5_fresh (.dict []) c5_st0).result)
        ((c5_fresh (.dict []) c5_st0).2.1).now (generate_cache_key c5_hash (.dict [])) :=
  let h := C5_cache_hit_second_call c5_hash c5_fresh (.dict []) c5_st0 10
    [("risk_score", .num 7)] rfl rfl rfl (by norm_num [c5_fresh, c5_st0])
  ⟨h.1, h.2.1⟩


end Risknet
